import Mathlib

/-!
Shallow embedding of the paginated issue-retrieval engine of the
`issue-downloader` package (`src/issue_downloader/models.py`,
`github_api_query.py`, `github_utils.py`).

Python `datetime.date` / `datetime.datetime` values are opaque to the
engine: the only operations the engine performs are `datetime.date()`
(projecting the date part) and `str(date)` (the ISO text interpolated
into the search string).  They are therefore embedded as records holding
the ISO text of the date part.

The network is abstracted as a `Service` function standing for
`make_request client (get_query sf lf cf)`: it receives the three
`GraphQLFilter` values that determine the rendered query and returns the
decoded `data.search` payload, or `none` for a failed request.  Recursion
that in Python runs until the service stops reporting `hasNextPage` is
given explicit fuel; exhausted fuel also yields `none`.
-/

/-- `models.FileFormats` is irrelevant to the engine and omitted.
`models.IssueType`. -/
inductive IssueType where
  | ISSUE
  | PR
deriving DecidableEq, Repr

/-- `IssueType.value` (the `.value` of the Python enum member). -/
def IssueType.value : IssueType → String
  | .ISSUE => "ISSUE"
  | .PR => "PR"

/-- Opaque embedding of `datetime.date`: `iso` is `str(d)`. -/
structure PyDate where
  iso : String
deriving DecidableEq, Repr

/-- Opaque embedding of `datetime.datetime`; the engine only projects
`.date()`. -/
structure PyDateTime where
  date : PyDate
deriving DecidableEq, Repr

/-- `models.SearchQuery` (a dataclass). -/
structure SearchQuery where
  issue_type : IssueType := .ISSUE
  sort : String := "created-desc"
  updated : Option PyDate := none
  repos : Option (List String) := none
  user : Option String := none
  include_closed : Bool := true
  include_archived : Bool := false
deriving DecidableEq, Repr

/-- Python `sep.join(parts)`. -/
def pyJoin (sep : String) : List String → String
  | [] => ""
  | x :: rest =>
    match rest with
    | [] => x
    | _ :: _ => x ++ sep ++ pyJoin sep rest

/-- The `search_string` list built by `SearchQuery.__str__` before
`" ".join`.  Python truthiness: `if self.repos:` is false for `None` and
for an empty list, `if self.user:` is false for `None` and for the empty
string; a `date` object is always truthy. -/
def SearchQuery.tokens (q : SearchQuery) : List String :=
  ["is:" ++ q.issue_type.value, "sort:created-asc"]
  ++ (match q.updated with
      | some d => ["updated:>=" ++ d.iso]
      | none => [])
  ++ (match q.repos with
      | some rs => if rs.isEmpty then [] else rs.map (fun r => "repo:" ++ r)
      | none => [])
  ++ (match q.user with
      | some u => if u.isEmpty then [] else ["user:" ++ u]
      | none => [])
  ++ (if q.include_closed then [] else ["is:open"])
  ++ (if q.include_archived then [] else ["archived:false"])

/-- `SearchQuery.__str__`. -/
def SearchQuery.str (q : SearchQuery) : String :=
  pyJoin " " q.tokens

/-- `models.GraphQLFilter` (a dataclass). -/
structure GraphQLFilter where
  first : Nat
  after : Option String := none
  type : Option IssueType := none
  query : Option SearchQuery := none
deriving DecidableEq, Repr

/-- The parts list built by `GraphQLFilter.__str__` before `" ".join`.
Python truthiness: `if self.after:` is false for `None` and for the empty
string; an enum member and a dataclass instance are always truthy. -/
def GraphQLFilter.parts (f : GraphQLFilter) : List String :=
  ["first:" ++ toString f.first]
  ++ (match f.after with
      | some a => if a.isEmpty then [] else ["after:\"" ++ a ++ "\""]
      | none => [])
  ++ (match f.type with
      | some t => ["type:" ++ t.value]
      | none => [])
  ++ (match f.query with
      | some q => ["query:\"" ++ q.str ++ "\""]
      | none => [])

/-- `GraphQLFilter.__str__`. -/
def GraphQLFilter.str (f : GraphQLFilter) : String :=
  pyJoin " " f.parts

/-- Literal text of `github_api_query.get_query` before the search
filter. -/
def querySeg0 : String := " \x7b search( "

/-- Literal text of `get_query` between the search filter and the labels
filter. -/
def querySeg1 : String :=
  " ) \x7b   issueCount   pageInfo \x7b    hasNextPage    endCursor   \x7d   edges \x7b     cursor     node \x7b       ... on Issue \x7b         id         number         title         url         author \x7b           login         \x7d         repository \x7b           id           name           owner \x7b             login           \x7d           name_with_owner: nameWithOwner           archived_at: archivedAt           is_archived: isArchived \x7d state state_reason: stateReason closed_at: closedAt created_at: createdAt updated_at: updatedAt body reactions(first: 10) \x7b   edges \x7b     node \x7b       ... on Reaction \x7b         content         user \x7b           login         \x7d       \x7d     \x7d   \x7d \x7d assignees(first: 10) \x7b   edges \x7b     node \x7b       id       login     \x7d   \x7d \x7d labels( "

/-- Literal text of `get_query` between the labels filter and the
comments filter. -/
def querySeg2 : String :=
  " ) \x7b  pageInfo \x7b    hasNextPage    endCursor  \x7d  edges \x7b    cursor    node \x7b      id      name      description    \x7d  \x7d \x7d comments( "

/-- Literal text of `get_query` after the comments filter. -/
def querySeg3 : String :=
  " ) \x7b  pageInfo \x7b    hasNextPage    endCursor  \x7d  edges \x7b    cursor    node \x7b      id      body      created_at: createdAt      author \x7b        login      \x7d      reactions(first: 10) \x7b        edges \x7b          node \x7b            ... on Reaction \x7b              content              user \x7b                login              \x7d            \x7d          \x7d        \x7d      \x7d    \x7d  \x7d \x7d \x7d \x7d \x7d \x7d \x7d"

/-- `github_api_query.get_query`: the three filters are interpolated as
literal text (f-strings) between the fixed query segments. -/
def get_query (search_filter labels_filter comments_filter : GraphQLFilter) : String :=
  querySeg0 ++ search_filter.str ++ querySeg1 ++ labels_filter.str
    ++ querySeg2 ++ comments_filter.str ++ querySeg3

/-- `bytes.replace(b"\r\n", b"\n")` on UTF-8 encoded text, as used by the
`convert_line_endings` validators.  The bytes `0x0D 0x0A` can only occur
as the code points CR LF in valid UTF-8, so the byte-level replacement is
the character-level left-to-right non-overlapping replacement. -/
def replCRLF : List Char → List Char
  | '\r' :: '\n' :: rest => '\n' :: replCRLF rest
  | c :: rest => c :: replCRLF rest
  | [] => []

/-- `Comment.convert_line_endings` / `Issue.convert_line_endings`:
`v.encode("utf-8").replace(b"\r\n", b"\n").decode("utf-8")`. -/
def convert_line_endings (s : String) : String :=
  ⟨replCRLF s.data⟩

/-- Whether a character list contains a CR immediately followed by LF. -/
def containsCRLF : List Char → Bool
  | '\r' :: '\n' :: _ => true
  | _ :: rest => containsCRLF rest
  | [] => false

/-- Whether a character list contains two consecutive CR characters. -/
def hasRR : List Char → Bool
  | '\r' :: '\r' :: _ => true
  | _ :: rest => hasRR rest
  | [] => false

/-- `models.REACTION_MAPPING[v]` as a partial lookup: `none` models the
`KeyError` raised for an unknown key. -/
def REACTION_MAPPING : String → Option String
  | "THUMBS_UP" => some "👍"
  | "THUMBS_DOWN" => some "👎"
  | "LAUGH" => some "😀"
  | "HOORAY" => some "🎉"
  | "CONFUSED" => some "😕"
  | "HEART" => some "❤️"
  | "ROCKET" => some "🚀"
  | "EYES" => some "👀"
  | _ => none

/-- The eight known reaction content values (the keys of
`REACTION_MAPPING`). -/
def knownReactionContents : List String :=
  ["THUMBS_UP", "THUMBS_DOWN", "LAUGH", "HOORAY", "CONFUSED", "HEART",
   "ROCKET", "EYES"]

/-- `models.Reaction` after validation (`content` already mapped to its
emoji). -/
structure Reaction where
  content : String
  user : String
deriving DecidableEq, Repr

/-- One element of the wire `reactions.edges` list:
`edge["node"] = \x7b content, user: \x7b login \x7d \x7d`. -/
structure RawReaction where
  content : String
  user_login : String
deriving DecidableEq, Repr

/-- `models.parse_reactions` over the edges of the wire `reactions`
object, composed with the `Reaction.emoji_content` validator:
`Reaction(user=r["node"]["user"]["login"], content=r["node"]["content"])`.
`none` models the `KeyError` escaping from `REACTION_MAPPING[v]` for an
unknown content value (pydantic does not catch `KeyError`). -/
def parse_reactions (edges : List RawReaction) : Option (List Reaction) :=
  match edges with
  | [] => some []
  | r :: rest => do
    let emoji ← REACTION_MAPPING r.content
    let tail ← parse_reactions rest
    pure ({ content := emoji, user := r.user_login } :: tail)

/-- `models.Label` (validation of a label node never fails). -/
structure Label where
  name : String
  description : Option String := none
deriving DecidableEq, Repr

/-- `models.Comment` after validation. -/
structure Comment where
  id : String
  body : String
  author : String
  created_at : PyDateTime
  reactions : Option (List Reaction) := none
deriving DecidableEq, Repr

/-- Wire shape of one `comments.edges[].node`: `author` is `null` for a
deleted account (subscripting `None` raises `TypeError`, which the
validator turns into `""`). -/
structure RawComment where
  id : String
  body : String
  author_login : Option String
  created_at : PyDateTime
  reactions : List RawReaction
deriving DecidableEq, Repr

/-- The `unpack_author` validator: `str(v["login"])`, with `TypeError`
(subscripting `None`) mapped to the empty string. -/
def unpack_author : Option String → String
  | some login => login
  | none => ""

/-- Validation of one `Comment` from its wire node (the pydantic
validators `unpack_author`, `parse_react`, `convert_line_endings`).
`none` models a `KeyError` from an unknown reaction content. -/
def parseComment (raw : RawComment) : Option Comment := do
  let reacts ← parse_reactions raw.reactions
  pure
    { id := raw.id
      body := convert_line_endings raw.body
      author := unpack_author raw.author_login
      created_at := raw.created_at
      reactions := some reacts }

/-- `models.Repository` after validation. -/
structure Repository where
  id : String
  name : String
  owner : String
  is_archived : Bool
  archived_at : Option PyDateTime := none
deriving DecidableEq, Repr

/-- Wire shape of the `repository` object (`owner` is unpacked from
`\x7b login \x7d` by the `unpack_owner` validator). -/
structure RawRepo where
  id : String
  name : String
  owner_login : String
  is_archived : Bool
  archived_at : Option PyDateTime
deriving DecidableEq, Repr

/-- `Repository(**node["repository"])` with the `unpack_owner`
validator. -/
def parseRepository (raw : RawRepo) : Repository :=
  { id := raw.id
    name := raw.name
    owner := raw.owner_login
    is_archived := raw.is_archived
    archived_at := raw.archived_at }

/-- `models.Issue` after validation. -/
structure Issue where
  author : String
  body : String
  created_at : PyDateTime
  id : String
  number : Nat
  repository : Repository
  state : String
  title : String
  updated_at : PyDateTime
  url : String
  assignees : Option (List String) := none
  closed_at : Option PyDateTime := none
  comments : Option (List Comment) := none
  labels : Option (List Label) := none
  reactions : Option (List Reaction) := none
  state_reason : Option String := none
deriving DecidableEq, Repr

/-- Page-info pair of any paginated connection. -/
structure PageInfo where
  hasNextPage : Bool
  endCursor : Option String
deriving DecidableEq, Repr

/-- One edge of the wire `labels` connection. -/
structure LabelEdge where
  cursor : Option String := none
  node : Label
deriving DecidableEq, Repr

/-- The wire `labels` connection of an issue node. -/
structure LabelsConn where
  pageInfo : PageInfo
  edges : List LabelEdge
deriving DecidableEq, Repr

/-- One edge of the wire `comments` connection. -/
structure CommentEdge where
  cursor : Option String := none
  node : RawComment
deriving DecidableEq, Repr

/-- The wire `comments` connection of an issue node. -/
structure CommentsConn where
  pageInfo : PageInfo
  edges : List CommentEdge
deriving DecidableEq, Repr

/-- Wire shape of one `search.edges[].node` (an `... on Issue`
fragment). -/
structure RawIssueNode where
  id : String
  number : Nat
  title : String
  url : String
  author_login : Option String
  repository : RawRepo
  state : String
  state_reason : Option String
  closed_at : Option PyDateTime
  created_at : PyDateTime
  updated_at : PyDateTime
  body : String
  reactions : List RawReaction
  assignee_logins : List String
  labels : LabelsConn
  comments : CommentsConn
deriving DecidableEq, Repr

/-- One edge of the wire top-level `search.edges` list. -/
structure Edge where
  cursor : String
  node : RawIssueNode
deriving DecidableEq, Repr

/-- The decoded `data.search` payload of one response
(`issueCount`, `pageInfo`, `edges`). -/
structure SearchPayload where
  issueCount : Nat
  pageInfo : PageInfo
  edges : List Edge
deriving DecidableEq, Repr

/-- Assembly of the `data` dict and `Issue(**data)` in
`_get_paginated_issues`: inline scalar fields merged with the resolved
`labels` and `comments` lists; `state` must satisfy the
`Literal["OPEN", "CLOSED"]` annotation, and `parse_reactions` may fail
with a `KeyError` (`none`). -/
def parseIssue (node : RawIssueNode) (labels : List Label)
    (comments : List Comment) : Option Issue := do
  if node.state = "OPEN" ∨ node.state = "CLOSED" then
    let reacts ← parse_reactions node.reactions
    pure
      { author := unpack_author node.author_login
        body := convert_line_endings node.body
        created_at := node.created_at
        id := node.id
        number := node.number
        repository := parseRepository node.repository
        state := node.state
        title := node.title
        updated_at := node.updated_at
        url := node.url
        assignees := some node.assignee_logins
        closed_at := node.closed_at
        comments := some comments
        labels := some labels
        reactions := some reacts
        state_reason := node.state_reason }
  else
    none

/-- Abstraction of `make_request client (get_query sf lf cf)`: the
service receives the three filter values that determine the rendered
query and returns the decoded `data.search` payload (`none` for a failed
request). -/
def Service : Type :=
  GraphQLFilter → GraphQLFilter → GraphQLFilter → Option SearchPayload

/-- `_get_paginated_labels`.  The first component of the result is the
accumulated label list, the second counts the extra single-issue
re-queries issued.  `none` models an exception (failed request, empty
`edges` making `edges[0]` raise `IndexError`, or exhausted fuel). -/
def get_paginated_labels (service : Service) :
    Nat → GraphQLFilter → GraphQLFilter → GraphQLFilter → LabelsConn →
    Option (List Label × Nat)
  | 0, _, _, _, _ => none
  | fuel + 1, search_filter, labels_filter, comments_filter, conn => do
    let inline := conn.edges.map (fun e => e.node)
    if conn.pageInfo.hasNextPage then
      let labels_filter_next : GraphQLFilter :=
        { labels_filter with first := 100, after := conn.pageInfo.endCursor }
      let inner_response ← service search_filter labels_filter_next comments_filter
      let inner_issue ← inner_response.edges.head?
      let (more, n) ←
        get_paginated_labels service fuel search_filter labels_filter_next
          comments_filter inner_issue.node.labels
      pure (inline ++ more, n + 1)
    else
      pure (inline, 0)

/-- `_get_paginated_comments` (same shape as the labels resolver; the
comment nodes additionally pass pydantic validation, which can fail on an
unknown reaction content). -/
def get_paginated_comments (service : Service) :
    Nat → GraphQLFilter → GraphQLFilter → GraphQLFilter → CommentsConn →
    Option (List Comment × Nat)
  | 0, _, _, _, _ => none
  | fuel + 1, search_filter, labels_filter, comments_filter, conn => do
    let inline ← conn.edges.mapM (fun e => parseComment e.node)
    if conn.pageInfo.hasNextPage then
      let comments_filter_next : GraphQLFilter :=
        { comments_filter with first := 100, after := conn.pageInfo.endCursor }
      let inner_response ← service search_filter labels_filter comments_filter_next
      let inner_issue ← inner_response.edges.head?
      let (more, n) ←
        get_paginated_comments service fuel search_filter labels_filter
          comments_filter_next inner_issue.node.comments
      pure (inline ++ more, n + 1)
    else
      pure (inline, 0)

/-- Python list subscription `l[i]` including negative indices:
`l[i]` is `l[i + len(l)]` for `i < 0`; out of range is `IndexError`
(`none`). -/
def pyIndex (l : List Edge) (i : Int) : Option Edge :=
  let j : Int := if i < 0 then i + l.length else i
  if h : 0 ≤ j ∧ j < l.length then
    some (l.get ⟨j.toNat, by omega⟩)
  else
    none

/-- The single-issue anchor filter prepared for edge `index` of a page:
`search_filter_single_issue = copy.copy(search_filter)` with
`first = 1` and `after = search_result["edges"][index - 1]["cursor"]`.
For `index = 0` the Python subscript `edges[-1]` wraps around to the
page's last edge. -/
def singleIssueFilter (search_filter : GraphQLFilter) (edges : List Edge)
    (index : Nat) : GraphQLFilter :=
  { search_filter with
      first := 1
      after := (pyIndex edges (Int.ofNat index - 1)).map (fun e => e.cursor) }

/-- The per-edge body of the `for index, issue_edge in enumerate(...)`
loop of `_get_paginated_issues`: resolve labels and comments through the
single-issue anchor filter, then assemble the `Issue`. -/
def processEdges (service : Service) (fuel : Nat)
    (search_filter labels_filter comments_filter : GraphQLFilter)
    (allEdges : List Edge) : Nat → List Edge → Option (List Issue)
  | _, [] => some []
  | index, issue_edge :: rest => do
    let search_filter_single_issue := singleIssueFilter search_filter allEdges index
    let (labels, _) ←
      get_paginated_labels service fuel search_filter_single_issue labels_filter
        comments_filter issue_edge.node.labels
    let (comments, _) ←
      get_paginated_comments service fuel search_filter_single_issue labels_filter
        comments_filter issue_edge.node.comments
    let issue ← parseIssue issue_edge.node labels comments
    let more ←
      processEdges service fuel search_filter labels_filter comments_filter
        allEdges (index + 1) rest
    pure (issue :: more)

/-- `_get_paginated_issues`.  Returns the accumulated issues, the
`issueCount` of the response to the *first* request of the sweep (the
recursive call's count is discarded: `inner_issues, _ = ...`), and the
final value of the search filter object, which the source mutates in
place (`search_filter.after = search_result["pageInfo"]["endCursor"]`)
before recursing; threading that value makes the mutation observable. -/
def get_paginated_issues (service : Service) :
    Nat → GraphQLFilter → GraphQLFilter → GraphQLFilter →
    Option (List Issue × Nat × GraphQLFilter)
  | 0, _, _, _ => none
  | fuel + 1, search_filter, labels_filter, comments_filter => do
    let search_result ← service search_filter labels_filter comments_filter
    let issues ←
      processEdges service fuel search_filter labels_filter comments_filter
        search_result.edges 0 search_result.edges
    if search_result.pageInfo.hasNextPage then
      let search_filter' :=
        { search_filter with after := search_result.pageInfo.endCursor }
      let (inner_issues, _, final_filter) ←
        get_paginated_issues service fuel search_filter' labels_filter comments_filter
      pure (issues ++ inner_issues, search_result.issueCount, final_filter)
    else
      pure (issues, search_result.issueCount, search_filter)

/-- The filter for a new sweep of the search-cap workaround:
`new_search_filter = copy.copy(search_filter)`, `.after = None`,
`.query.updated = latest_date`.  (`get_issues` always constructs the
search filter with a query, matching the source's unchecked attribute
access.) -/
def newSweepFilter (search_filter : GraphQLFilter) (latest_date : PyDate) :
    GraphQLFilter :=
  { search_filter with
      after := none
      query := search_filter.query.map (fun q => { q with updated := some latest_date }) }

/-- The `while search_issue_count > 1000 and len(issues) % 1000 == 0`
loop of `get_issues`, over a sweep service (a full
`_get_paginated_issues` run for a given search filter).  The second
component of the result counts the additional sweeps started.  `none`
models an exception (`issues[-1]` on an empty list, a failed sweep, or
exhausted fuel). -/
def capLoop (sweep : GraphQLFilter → Option (List Issue × Nat)) :
    Nat → GraphQLFilter → List Issue → Nat → Option (List Issue × Nat)
  | 0, _, _, _ => none
  | fuel + 1, search_filter, issues, search_issue_count =>
    if search_issue_count > 1000 && issues.length % 1000 == 0 then do
      let latest ← issues.getLast?
      let latest_date := latest.created_at.date
      let (next_issue_batch, count') ← sweep (newSweepFilter search_filter latest_date)
      let (final, n) ←
        capLoop sweep fuel search_filter (issues ++ next_issue_batch) count'
      pure (final, n + 1)
    else
      some (issues, 0)

/-- `list(set(issues))`: Python set membership is decided by `==`, which
for a pydantic model compares every field (no `__eq__` override
accompanies the id-based `__hash__`), so only field-identical duplicates
collapse.  The result keeps one representative per equality class; its
size is what the claims speak about. -/
def pyDedup (issues : List Issue) : List Issue :=
  issues.foldl (fun acc i => if i ∈ acc then acc else acc ++ [i]) []

/-- `get_issues`: build the three filters, run the first sweep, run the
search-cap workaround loop, deduplicate. -/
def get_issues (service : Service) (fuel : Nat) (date : Option PyDate)
    (issue_type : IssueType) (org : Option String) (repos : Option (List String))
    (include_archived : Bool) (include_closed : Bool) : Option (List Issue) := do
  let query : SearchQuery :=
    { issue_type := issue_type
      updated := date
      repos := repos
      user := org
      include_closed := include_closed
      include_archived := include_archived }
  let search_filter : GraphQLFilter :=
    { first := 100, type := some issue_type, query := some query }
  let labels_filter : GraphQLFilter := { first := 10 }
  let comments_filter : GraphQLFilter := { first := 10 }
  let (issues, search_issue_count, _) ←
    get_paginated_issues service fuel search_filter labels_filter comments_filter
  let (all, _) ←
    capLoop
      (fun f =>
        (get_paginated_issues service fuel f labels_filter comments_filter).map
          (fun r => (r.1, r.2.1)))
      fuel search_filter issues search_issue_count
  pure (pyDedup all)

/-- The kinds of shape/decoding failures `make_request` can surface:
`jsonDecode` is the `json.JSONDecodeError` escaping from `r.json()` on an
undecodable body, `missingKey` the `KeyError` from
`r.json()["data"]["search"]` on a decoded body without those keys. -/
inductive ProtoKind where
  | jsonDecode
  | missingKey
deriving DecidableEq, Repr

/-- The failure kinds of `make_request`: `transport` covers both an
`httpx` transport exception from `client.post` and the
`HTTPStatusError` from `r.raise_for_status()`; `api` is the
`RuntimeError` carrying the service-reported `errors` list; `protocol`
the shape/decoding failures. -/
inductive RequestError where
  | transport
  | api (errs : List String)
  | protocol (k : ProtoKind)
deriving DecidableEq, Repr

/-- A decoded response body: `errors` is `some` exactly when the
top-level `errors` key is present (even with an empty list), and
`data_search` is `some` exactly when both the `data` and `search` keys
are present. -/
structure RespBody where
  errors : Option (List String)
  data_search : Option SearchPayload
deriving DecidableEq, Repr

/-- The outcome of `client.post`: either a transport-level failure, or a
response with a success flag (`raise_for_status` raises on any non-2xx
status) and a body that decodes to `some RespBody` or to `none` when
undecodable. -/
inductive HttpOutcome where
  | netFail
  | resp (success : Bool) (body : Option RespBody)
deriving DecidableEq, Repr

/-- `make_request`: `r.raise_for_status()` first, then
`if "errors" in r.json()` (decoding happens here, so an undecodable body
raises `json.JSONDecodeError` before the `errors` check, outside the
`try` block), then `r.json()["data"]["search"]`. -/
def make_request : HttpOutcome → Except RequestError SearchPayload
  | .netFail => .error .transport
  | .resp success body =>
    if success then
      match body with
      | none => .error (.protocol .jsonDecode)
      | some b =>
        match b.errors with
        | some errs => .error (.api errs)
        | none =>
          match b.data_search with
          | none => .error (.protocol .missingKey)
          | some d => .ok d
    else
      .error .transport

/-- `a` occurs in `s` as a contiguous substring. -/
def SubstrP (a s : String) : Prop :=
  ∃ p q, s = p ++ (a ++ q)

theorem SubstrP.append_left {a s : String} (t : String) (h : SubstrP a s) :
    SubstrP a (t ++ s) := by
  obtain ⟨p, q, rfl⟩ := h
  exact ⟨t ++ p, q, by rw [String.append_assoc]⟩

theorem SubstrP.append_right {a s : String} (t : String) (h : SubstrP a s) :
    SubstrP a (s ++ t) := by
  obtain ⟨p, q, rfl⟩ := h
  exact ⟨p, q ++ t, by simp [String.append_assoc]⟩

theorem SubstrP.of_mem_pyJoin {a : String} (sep : String) {l : List String}
    (h : a ∈ l) : SubstrP a (pyJoin sep l) := by
  induction l with
  | nil => simp at h
  | cons x rest ih =>
    rcases List.mem_cons.mp h with rfl | hmem
    · cases rest with
      | nil =>
        exact ⟨"", "", by simp [pyJoin, String.empty_append, String.append_empty]⟩
      | cons y t =>
        exact ⟨"", sep ++ pyJoin sep (y :: t),
          by simp [pyJoin, String.append_assoc, String.empty_append]⟩
    · obtain ⟨p, q, hq⟩ := ih hmem
      cases rest with
      | nil => simp at hmem
      | cons y t =>
        refine ⟨x ++ sep ++ p, q, ?_⟩
        show x ++ sep ++ pyJoin sep (y :: t) = x ++ sep ++ p ++ (a ++ q)
        rw [hq, String.append_assoc, String.append_assoc, String.append_assoc]

theorem replCRLF_head_lf (rest r1 : List Char) (he : replCRLF rest = '\n' :: r1) :
    rest.head? = some '\n' ∨ ∃ t, rest = '\r' :: '\n' :: t := by
  cases rest with
  | nil => simp [replCRLF] at he
  | cons d t =>
    by_cases hshape : d = '\r' ∧ ∃ t2, t = '\n' :: t2
    · obtain ⟨hd, t2, ht⟩ := hshape
      subst hd; subst ht
      right; exact ⟨t2, rfl⟩
    · have hrw : replCRLF (d :: t) = d :: replCRLF t := by
        apply replCRLF.eq_2
        intro r2 hd ht
        exact hshape ⟨hd, r2, ht⟩
      rw [hrw] at he
      injection he with h1 h2
      left; simp [h1]

/-- A single left-to-right pass replacing CR LF by LF cannot create a
CR LF pair unless the input had two adjacent CR characters. -/
theorem replCRLF_no_crlf (l : List Char) (h : hasRR l = false) :
    containsCRLF (replCRLF l) = false := by
  induction l using replCRLF.induct with
  | case1 rest ih => exact ih h
  | case2 c rest hne ih =>
    have hside : ∀ t : List Char, c = '\r' → rest = '\r' :: t → False := by
      intro t hc hr
      subst hc; subst hr
      exact absurd h (by simp [hasRR])
    have h2 : hasRR rest = false := by
      rw [hasRR.eq_2 c rest hside] at h
      exact h
    rw [replCRLF.eq_2 c rest hne]
    have hside2 : ∀ r1 : List Char, c = '\r' → replCRLF rest = '\n' :: r1 → False := by
      intro r1 hc hrepl
      rcases replCRLF_head_lf rest r1 hrepl with hhd | ⟨t, ht⟩
      · cases rest with
        | nil => simp at hhd
        | cons d t2 =>
          simp at hhd
          exact hne t2 hc (by rw [hhd])
      · exact hside ('\n' :: t) hc ht
    rw [containsCRLF.eq_2 c (replCRLF rest) hside2]
    exact ih h2
  | case3 => rfl

/-! Concrete fixtures for witnesses and counterexamples. -/

/-- A sample timestamp. -/
def dt0 : PyDateTime := ⟨⟨"2024-01-01"⟩⟩

/-- A sample wire repository object. -/
def rawRepo0 : RawRepo :=
  { id := "R1", name := "repo", owner_login := "org", is_archived := false,
    archived_at := none }

/-- A page-info pair reporting no further page. -/
def noNext : PageInfo := { hasNextPage := false, endCursor := none }

/-- A minimal valid wire issue node with the given id and nested
connections. -/
def mkNode (id : String) (body : String := "hello")
    (labels : LabelsConn := { pageInfo := noNext, edges := [] })
    (comments : CommentsConn := { pageInfo := noNext, edges := [] })
    (reactions : List RawReaction := []) : RawIssueNode :=
  { id := id, number := 1, title := "t", url := "u",
    author_login := some "alice", repository := rawRepo0, state := "OPEN",
    state_reason := none, closed_at := none, created_at := dt0,
    updated_at := dt0, body := body, reactions := reactions,
    assignee_logins := [], labels := labels, comments := comments }

/-- A sweep search filter as `get_issues` constructs it. -/
def sf0 : GraphQLFilter :=
  { first := 100, type := some IssueType.ISSUE, query := some {} }

/-- The nested label filter as `get_issues` constructs it. -/
def lf0 : GraphQLFilter := { first := 10 }

/-- The nested comment filter as `get_issues` constructs it. -/
def cf0 : GraphQLFilter := { first := 10 }

/-- The label with name `L<i>`. -/
def mkLabel (i : Nat) : Label := { name := "L" ++ toString i }

/-- The 23 distinct labels of the nested-resolution scenario. -/
def labels23 : List Label := (List.range 23).map mkLabel

/-- Inline label page: the first 10 of 23 labels, reporting a next
page at cursor `LC10`. -/
def labelsPage1 : LabelsConn :=
  { pageInfo := { hasNextPage := true, endCursor := some "LC10" },
    edges := ((List.range 10).map mkLabel).map (fun l => { node := l }) }

/-- Second label page: the remaining 13 labels, final. -/
def labelsPage2 : LabelsConn :=
  { pageInfo := noNext,
    edges := (((List.range 23).drop 10).map mkLabel).map (fun l => { node := l }) }

/-- Stub service for the nested-resolution scenario: every re-query
returns a single issue edge whose label connection is the final second
page. -/
def labelStubService : Service :=
  fun _ _ _ =>
    some
      { issueCount := 1
        pageInfo := noNext
        edges := [{ cursor := "e0", node := mkNode "I1" "b" labelsPage2 }] }

/-- Two-issue top-level page used by the anchor-filter evaluation. -/
def anchorEdges : List Edge :=
  [{ cursor := "c0", node := mkNode "I1" }, { cursor := "c1", node := mkNode "I2" }]

/-- First top-level page of the two-page sweep: one issue, a next page at
cursor `CUR1`, and total match count 5. -/
def sweepPage1 : SearchPayload :=
  { issueCount := 5
    pageInfo := { hasNextPage := true, endCursor := some "CUR1" }
    edges := [{ cursor := "c0", node := mkNode "I1" }] }

/-- Second top-level page of the two-page sweep: one issue, final, and a
stale match count 999. -/
def sweepPage2 : SearchPayload :=
  { issueCount := 999
    pageInfo := noNext
    edges := [{ cursor := "c1", node := mkNode "I2" }] }

/-- Stub service for the two-page sweep: answers the follow-up request
(the one whose search cursor was advanced to `CUR1`) with the second
page, every other request with the first page. -/
def twoPageService : Service :=
  fun sf _ _ =>
    if sf.after = some "CUR1" then some sweepPage2 else some sweepPage1

/-- A fully resolved issue record. -/
def issueA : Issue :=
  { author := "alice", body := "hello", created_at := dt0, id := "I1",
    number := 1, repository := parseRepository rawRepo0, state := "OPEN",
    title := "first", updated_at := dt0, url := "u" }

/-- Same id as `issueA`, different title. -/
def issueB : Issue := { issueA with title := "second" }

/-- C1: evaluation of the single-issue anchor filter at a concrete
two-edge page.  For every later edge the anchor is the cursor of the
immediately preceding edge and the page size is pinned to 1, as claimed;
but for the first edge (index 0) the Python subscript
`edges[index - 1] = edges[-1]` wraps around to the page's **last** edge,
so the anchor is `some "c1"` instead of the claimed absent/initial
cursor — an "after c1, take 1" request selects the issue after the page,
not the first issue of the page. -/
theorem c1_first_edge_anchor_eval :
    (singleIssueFilter sf0 anchorEdges 0).first = 1 ∧
    (singleIssueFilter sf0 anchorEdges 0).after = some "c1" ∧
    (singleIssueFilter sf0 anchorEdges 0).after ≠ none ∧
    (singleIssueFilter sf0 anchorEdges 1).first = 1 ∧
    (singleIssueFilter sf0 anchorEdges 1).after = some "c0" := by
  decide

/-- C2: evaluation of the aggregator at two records with equal `id` but
different `title`.  Python set membership uses `==`, and pydantic's
default `__eq__` compares every field (the model only overrides
`__hash__`), so `list(set(..))` keeps both records: the deduplicated
size is 2, not the claimed 1.  Only a field-identical duplicate
collapses. -/
theorem c2_dedupe_same_id_eval :
    issueA.id = issueB.id ∧ issueA ≠ issueB ∧
    (pyDedup [issueA, issueB]).length = 2 ∧
    (pyDedup [issueA, issueA]).length = 1 := by
  decide

/-- A non-success response whose body carries a top-level `errors`
array. -/
def resp500errors : HttpOutcome :=
  .resp false (some { errors := some ["boom"], data_search := none })

/-- C5 counterexample: for a non-success HTTP status whose body contains
a top-level `errors` array, `make_request` raises the status error
(`TransportError`), not the claimed `ApiError` carrying the error list —
`r.raise_for_status()` runs before the body is ever examined. -/
theorem c5_errors_with_bad_status_counterexample :
    make_request resp500errors = .error .transport ∧
    RequestError.transport ≠ RequestError.api ["boom"] := by
  exact ⟨rfl, by decide⟩

/-- The sweep filter with its cursor set to the empty string. -/
def sfEmptyCursor : GraphQLFilter := { sf0 with after := some "" }

/-- C8 counterexample: two structurally distinct filter triples
(`afterCursor` absent versus `afterCursor` present with the empty
string) render to byte-identical query text, because
`GraphQLFilter.__str__` guards the cursor fragment with Python
truthiness (`if self.after:`), which is false for the empty string. -/
theorem c8_empty_cursor_collision :
    sf0 ≠ sfEmptyCursor ∧
    get_query sf0 lf0 cf0 = get_query sfEmptyCursor lf0 cf0 := by
  exact ⟨by decide, rfl⟩

/-- A wire issue node whose body is CR CR LF. -/
def crNode : RawIssueNode := mkNode "I9" "\r\r\n"

/-- C9 counterexample: the record constructed from a wire body
`"\r\r\n"` has body `"\r\n"`: the single non-overlapping replacement
pass consumes the CR LF at positions 1–2, and the surviving CR at
position 0 joins the produced LF into a new CR LF pair, so the stored
body does contain a carriage-return/line-feed pair. -/
theorem c9_crlf_counterexample :
    ((parseIssue crNode [] []).map Issue.body) = some "\r\n" ∧
    ((parseIssue crNode [] []).map (fun i => containsCRLF i.body.data)) =
      some true := by
  exact ⟨rfl, rfl⟩

/-- C5 (amended): complete characterization of `make_request`.  The
status check runs first: a transport failure or non-success status fails
with the transport kind even when the body carries an `errors` array; on
a success status, an undecodable body fails with the JSON-decode kind
(raised at the `errors`-membership check, before the `try` block), a
present top-level `errors` key fails with the API kind carrying the
service-reported list, and a missing `data`/`search` key fails with the
shape kind; otherwise the search payload is returned.  No retry occurs:
the result is a function of the single response. -/
theorem c5_error_contract_amended (o : HttpOutcome) :
    (make_request o = .error .transport ↔
      (o = .netFail ∨ ∃ b, o = .resp false b)) ∧
    (∀ errs, make_request o = .error (.api errs) ↔
      ∃ ds, o = .resp true (some { errors := some errs, data_search := ds })) ∧
    (make_request o = .error (.protocol .jsonDecode) ↔ o = .resp true none) ∧
    (make_request o = .error (.protocol .missingKey) ↔
      o = .resp true (some { errors := none, data_search := none })) ∧
    (∀ d, make_request o = .ok d ↔
      o = .resp true (some { errors := none, data_search := some d })) := by
  rcases o with _ | ⟨succ, body⟩
  · simp [make_request]
  · cases succ
    · rcases body with _ | b <;> simp [make_request]
    · rcases body with _ | ⟨errs, ds⟩
      · simp [make_request]
      · rcases errs with _ | e
        · rcases ds with _ | d <;> simp [make_request]
        · simp [make_request]

/-- Witness for the amended C5 contract at concrete responses. -/
theorem c5_error_contract_amended_witness :
    make_request (.resp true none) = .error (.protocol .jsonDecode) ∧
    make_request (.resp true (some { errors := some ["e1"], data_search := none })) =
      .error (.api ["e1"]) := by
  constructor
  · exact (c5_error_contract_amended (.resp true none)).2.2.1.mpr rfl
  · exact ((c5_error_contract_amended
      (.resp true (some { errors := some ["e1"], data_search := none }))).2.1
        ["e1"]).mpr ⟨none, rfl⟩

/-- C8 (amended): the query builder is pure and deterministic —
structurally equal filter triples render to byte-identical text — and a
non-empty `afterCursor` appears in the rendered text as a quoted
literal.  Full injectivity fails: an empty-string cursor renders
identically to an absent one (see the collision counterexample). -/
theorem c8_query_determinism_amended :
    (∀ s1 s2 l1 l2 c1 c2 : GraphQLFilter,
      s1 = s2 → l1 = l2 → c1 = c2 → get_query s1 l1 c1 = get_query s2 l2 c2) ∧
    (∀ (s l c : GraphQLFilter) (cur : String),
      s.after = some cur → cur.isEmpty = false →
      SubstrP ("after:\"" ++ cur ++ "\"") (get_query s l c)) := by
  constructor
  · rintro s1 s2 l1 l2 c1 c2 rfl rfl rfl
    rfl
  · intro s l c cur ha hne
    have hmem : ("after:\"" ++ cur ++ "\"") ∈ s.parts := by
      simp [GraphQLFilter.parts, ha, hne]
    have h1 : SubstrP ("after:\"" ++ cur ++ "\"") s.str :=
      SubstrP.of_mem_pyJoin " " hmem
    exact (((((h1.append_left querySeg0).append_right querySeg1).append_right
      l.str).append_right querySeg2).append_right c.str).append_right querySeg3

/-- Witness for the amended C8 statement: determinism at one triple, and
the quoted cursor literal occurring in the rendered text for the cursor
`"abc"`. -/
theorem c8_query_determinism_amended_witness :
    get_query sf0 lf0 cf0 = get_query sf0 lf0 cf0 ∧
    SubstrP ("after:\"" ++ "abc" ++ "\"")
      (get_query { sf0 with after := some "abc" } lf0 cf0) := by
  constructor
  · exact c8_query_determinism_amended.1 sf0 sf0 lf0 lf0 cf0 cf0 rfl rfl rfl
  · exact c8_query_determinism_amended.2
      { sf0 with after := some "abc" } lf0 cf0 "abc" rfl rfl

/-- The fully resolved record that `parseIssue` produces from
`mkNode id rawBody` with no labels and no comments; `body` is the
already-normalized text. -/
def resolvedNode (id : String) (body : String) : Issue :=
  { author := "alice", body := body, created_at := dt0, id := id, number := 1,
    repository := parseRepository rawRepo0, state := "OPEN", title := "t",
    updated_at := dt0, url := "u", assignees := some [], closed_at := none,
    comments := some [], labels := some [], reactions := some [],
    state_reason := none }

/-- A wire comment with a CR LF in its body. -/
def rawCommentW : RawComment :=
  { id := "C1", body := "a\r\nb", author_login := some "alice",
    created_at := dt0, reactions := [] }

/-- The validated form of `rawCommentW`. -/
def commentW : Comment :=
  { id := "C1", body := "a\nb", author := "alice", created_at := dt0,
    reactions := some [] }

/-- C9 (amended): every successfully constructed record stores the
single-pass left-to-right non-overlapping replacement of CR LF by LF of
its wire body, and the stored body is CR-LF-free whenever the wire body
contains no two adjacent carriage returns (without that proviso a
surviving CR can join a produced LF, see the counterexample). -/
theorem c9_line_endings_amended :
    (∀ (node : RawIssueNode) (labels : List Label) (comments : List Comment)
      (i : Issue), parseIssue node labels comments = some i →
      i.body = convert_line_endings node.body) ∧
    (∀ (rawc : RawComment) (c : Comment), parseComment rawc = some c →
      c.body = convert_line_endings rawc.body) ∧
    (∀ s : String, hasRR s.data = false →
      containsCRLF (convert_line_endings s).data = false) ∧
    (∀ s : String, convert_line_endings s = ⟨replCRLF s.data⟩) := by
  refine ⟨?_, ?_, ?_, fun s => rfl⟩
  · intro node labels comments i h
    unfold parseIssue at h
    split at h
    · cases hm : parse_reactions node.reactions with
      | none => simp [hm] at h
      | some r =>
        simp [hm] at h
        subst h
        rfl
    · simp at h
  · intro rawc c h
    unfold parseComment at h
    cases hm : parse_reactions rawc.reactions with
    | none => simp [hm] at h
    | some r =>
      simp [hm] at h
      subst h
      rfl
  · intro s h
    exact replCRLF_no_crlf s.data h

/-- Witness for the amended C9 statement at the wire body `"a\r\nb"`. -/
theorem c9_line_endings_amended_witness :
    (resolvedNode "I1" "a\nb").body = convert_line_endings "a\r\nb" ∧
    commentW.body = convert_line_endings "a\r\nb" ∧
    containsCRLF (convert_line_endings "a\r\nb").data = false := by
  refine ⟨?_, ?_, ?_⟩
  · exact c9_line_endings_amended.1 (mkNode "I1" "a\r\nb") [] []
      (resolvedNode "I1" "a\nb") rfl
  · exact c9_line_endings_amended.2.1 rawCommentW commentW rfl
  · exact c9_line_endings_amended.2.2.1 "a\r\nb" (by decide)

theorem reaction_mapping_known (c : String) :
    (REACTION_MAPPING c).isSome = true ↔ c ∈ knownReactionContents := by
  unfold REACTION_MAPPING
  split <;> simp_all [knownReactionContents]

theorem parse_reactions_isSome (edges : List RawReaction) :
    (parse_reactions edges).isSome = true ↔
      ∀ r ∈ edges, r.content ∈ knownReactionContents := by
  induction edges with
  | nil => simp [parse_reactions]
  | cons r rest ih =>
    simp only [parse_reactions]
    cases hm : REACTION_MAPPING r.content with
    | none =>
      have hnk : r.content ∉ knownReactionContents := by
        rw [← reaction_mapping_known]
        simp [hm]
      simp [hm, hnk]
    | some e =>
      have hk : r.content ∈ knownReactionContents := by
        rw [← reaction_mapping_known]
        simp [hm]
      cases hp : parse_reactions rest with
      | none => simp_all [hp]
      | some l => simp_all [hp]

theorem parse_reactions_rel (edges : List RawReaction) :
    ∀ out, parse_reactions edges = some out →
      List.Forall₂ (fun (r : RawReaction) (a : Reaction) =>
        REACTION_MAPPING r.content = some a.content ∧ a.user = r.user_login)
        edges out := by
  induction edges with
  | nil =>
    intro out h
    simp [parse_reactions] at h
    subst h
    exact List.Forall₂.nil
  | cons r rest ih =>
    intro out h
    simp only [parse_reactions] at h
    cases hm : REACTION_MAPPING r.content with
    | none => rw [hm] at h; simp at h
    | some e =>
      rw [hm] at h
      cases hp : parse_reactions rest with
      | none => rw [hp] at h; simp at h
      | some tail =>
        rw [hp] at h
        simp at h
        subst h
        exact List.Forall₂.cons ⟨hm, rfl⟩ (ih tail hp)

/-- Stub service whose single issue carries a reaction with the unknown
content value `SPARKLES`. -/
def unknownReactionService : Service :=
  fun _ _ _ =>
    some
      { issueCount := 1
        pageInfo := noNext
        edges := [{ cursor := "c0",
                    node := mkNode "I1" "b" { pageInfo := noNext, edges := [] }
                      { pageInfo := noNext, edges := [] }
                      [{ content := "SPARKLES", user_login := "u" }] }] }

/-- C10: reaction parsing is partial — it succeeds exactly when every
reaction's content is one of the eight known values, maps each of the
eight to its emoji, relates every parsed reaction to its wire edge, and
an unknown content value (here `SPARKLES`) makes the whole sweep fail
(`KeyError` propagates, `none`) rather than being substituted. -/
theorem c10_reaction_parsing :
    (∀ c, (REACTION_MAPPING c).isSome = true ↔ c ∈ knownReactionContents) ∧
    (REACTION_MAPPING "THUMBS_UP" = some "👍" ∧
     REACTION_MAPPING "THUMBS_DOWN" = some "👎" ∧
     REACTION_MAPPING "LAUGH" = some "😀" ∧
     REACTION_MAPPING "HOORAY" = some "🎉" ∧
     REACTION_MAPPING "CONFUSED" = some "😕" ∧
     REACTION_MAPPING "HEART" = some "❤️" ∧
     REACTION_MAPPING "ROCKET" = some "🚀" ∧
     REACTION_MAPPING "EYES" = some "👀") ∧
    (∀ edges, (parse_reactions edges).isSome = true ↔
      ∀ r ∈ edges, r.content ∈ knownReactionContents) ∧
    (∀ edges out, parse_reactions edges = some out →
      List.Forall₂ (fun (r : RawReaction) (a : Reaction) =>
        REACTION_MAPPING r.content = some a.content ∧ a.user = r.user_login)
        edges out) ∧
    get_paginated_issues unknownReactionService 2 sf0 lf0 cf0 = none := by
  refine ⟨reaction_mapping_known,
    ⟨rfl, rfl, rfl, rfl, rfl, rfl, rfl, rfl⟩,
    parse_reactions_isSome,
    (fun edges => parse_reactions_rel edges),
    rfl⟩

/-- Witness for C10 at a concrete known reaction. -/
theorem c10_reaction_parsing_witness :
    (parse_reactions [{ content := "HOORAY", user_login := "u" }]).isSome = true ∧
    List.Forall₂ (fun (r : RawReaction) (a : Reaction) =>
      REACTION_MAPPING r.content = some a.content ∧ a.user = r.user_login)
      [{ content := "HOORAY", user_login := "u" }]
      [{ content := "🎉", user := "u" }] := by
  constructor
  · exact (c10_reaction_parsing.2.2.1
      [{ content := "HOORAY", user_login := "u" }]).mpr (by decide)
  · exact c10_reaction_parsing.2.2.2.1 _ _ rfl

/-- A comments connection whose (empty) inline page reports a next
page. -/
def commentsOverflow : CommentsConn :=
  { pageInfo := { hasNextPage := true, endCursor := some "CC1" }, edges := [] }

/-- C4: nested-collection resolution.  When the inline page reports no
next page, each resolver returns the inline items unchanged with zero
further requests; otherwise the single further request uses a filter
derived by raising the nested page size to 100 and setting its cursor to
the inline page's `endCursor`, recursing on the response's first issue
node; on the concrete 10-of-23-then-13 scenario the resolved list is
exactly the 23 distinct labels with exactly one extra request (none
after the final page). -/
theorem c4_nested_resolution :
    (∀ (service : Service) (fuel : Nat) (sf lf cf : GraphQLFilter)
      (conn : LabelsConn), conn.pageInfo.hasNextPage = false →
      get_paginated_labels service (fuel + 1) sf lf cf conn =
        some (conn.edges.map (fun e => e.node), 0)) ∧
    (∀ (service : Service) (fuel : Nat) (sf lf cf : GraphQLFilter)
      (conn : CommentsConn), conn.pageInfo.hasNextPage = false →
      get_paginated_comments service (fuel + 1) sf lf cf conn =
        (conn.edges.mapM (fun e => parseComment e.node)).bind
          (fun inline => some (inline, 0))) ∧
    (∀ (service : Service) (fuel : Nat) (sf lf cf : GraphQLFilter)
      (conn : LabelsConn), conn.pageInfo.hasNextPage = true →
      get_paginated_labels service (fuel + 1) sf lf cf conn =
        (service sf { lf with first := 100, after := conn.pageInfo.endCursor } cf).bind
          (fun inner_response => inner_response.edges.head?.bind
            (fun inner_issue =>
              (get_paginated_labels service fuel sf
                  { lf with first := 100, after := conn.pageInfo.endCursor } cf
                  inner_issue.node.labels).bind
                (fun r =>
                  some (conn.edges.map (fun e => e.node) ++ r.1, r.2 + 1))))) ∧
    (∀ (service : Service) (fuel : Nat) (sf lf cf : GraphQLFilter)
      (conn : CommentsConn), conn.pageInfo.hasNextPage = true →
      get_paginated_comments service (fuel + 1) sf lf cf conn =
        (conn.edges.mapM (fun e => parseComment e.node)).bind
          (fun inline =>
            (service sf lf { cf with first := 100, after := conn.pageInfo.endCursor }).bind
              (fun inner_response => inner_response.edges.head?.bind
                (fun inner_issue =>
                  (get_paginated_comments service fuel sf lf
                      { cf with first := 100, after := conn.pageInfo.endCursor }
                      inner_issue.node.comments).bind
                    (fun r => some (inline ++ r.1, r.2 + 1)))))) ∧
    (get_paginated_labels labelStubService 2 sf0 lf0 cf0 labelsPage1 =
        some (labels23, 1) ∧
      labels23.length = 23 ∧ labels23.Nodup) := by
  refine ⟨?_, ?_, ?_, ?_, by decide, by decide, by decide⟩
  · intro service fuel sf lf cf conn h
    simp [get_paginated_labels, h]
  · intro service fuel sf lf cf conn h
    simp [get_paginated_comments, h]
  · intro service fuel sf lf cf conn h
    simp [get_paginated_labels, h]
  · intro service fuel sf lf cf conn h
    simp [get_paginated_comments, h]

/-- Witness for C4 at concrete connections: the final label page
resolves inline with no request, and the overflowing inline page
resolves to the full 23 labels with one request. -/
theorem c4_nested_resolution_witness :
    get_paginated_labels labelStubService 1 sf0 lf0 cf0 labelsPage2 =
      some (((List.range 23).drop 10).map mkLabel, 0) ∧
    get_paginated_comments labelStubService 1 sf0 lf0 cf0
      { pageInfo := noNext, edges := [] } = some ([], 0) ∧
    get_paginated_labels labelStubService 2 sf0 lf0 cf0 labelsPage1 =
      some (labels23, 1) ∧
    get_paginated_comments labelStubService 2 sf0 lf0 cf0 commentsOverflow =
      some ([], 1) := by
  refine ⟨?_, ?_, ?_, ?_⟩
  · rw [c4_nested_resolution.1 labelStubService 0 sf0 lf0 cf0 labelsPage2 rfl]
    rfl
  · rw [c4_nested_resolution.2.1 labelStubService 0 sf0 lf0 cf0
      { pageInfo := noNext, edges := [] } rfl]
    rfl
  · rw [c4_nested_resolution.2.2.1 labelStubService 1 sf0 lf0 cf0 labelsPage1 rfl]
    rfl
  · rw [c4_nested_resolution.2.2.2.1 labelStubService 1 sf0 lf0 cf0
      commentsOverflow rfl]
    rfl

/-- C7: per sweep, the returned `totalMatchCount` is the `issueCount` of
the response to the sweep's first request — the recursive page fetch
discards its own count (`inner_issues, _ = ...`) — while the issue list
accumulates across all pages; on the concrete two-page sweep whose pages
report counts 5 and 999, the engine returns both issues and count 5. -/
theorem c7_first_page_count :
    (∀ (service : Service) (fuel : Nat) (sf lf cf : GraphQLFilter)
      (page : SearchPayload), service sf lf cf = some page →
      page.pageInfo.hasNextPage = true →
      get_paginated_issues service (fuel + 1) sf lf cf =
        (processEdges service fuel sf lf cf page.edges 0 page.edges).bind
          (fun issues =>
            (get_paginated_issues service fuel
                { sf with after := page.pageInfo.endCursor } lf cf).bind
              (fun r => some (issues ++ r.1, page.issueCount, r.2.2)))) ∧
    (∀ (service : Service) (fuel : Nat) (sf lf cf : GraphQLFilter)
      (page : SearchPayload), service sf lf cf = some page →
      page.pageInfo.hasNextPage = false →
      get_paginated_issues service (fuel + 1) sf lf cf =
        (processEdges service fuel sf lf cf page.edges 0 page.edges).bind
          (fun issues => some (issues, page.issueCount, sf))) ∧
    ((get_paginated_issues twoPageService 3 sf0 lf0 cf0).map
        (fun r => (r.1.map Issue.id, r.2.1)) = some (["I1", "I2"], 5) ∧
      sweepPage1.issueCount = 5 ∧ sweepPage2.issueCount = 999) := by
  refine ⟨?_, ?_, rfl, rfl, rfl⟩
  · intro service fuel sf lf cf page hs hn
    simp [get_paginated_issues, hs, hn]
  · intro service fuel sf lf cf page hs hn
    simp [get_paginated_issues, hs, hn]

/-- Witness for C7: the two-page sweep evaluated through the first-page
unfolding. -/
theorem c7_first_page_count_witness :
    get_paginated_issues twoPageService 3 sf0 lf0 cf0 =
      some ([resolvedNode "I1" "hello", resolvedNode "I2" "hello"], 5,
        { sf0 with after := some "CUR1" }) := by
  rw [c7_first_page_count.1 twoPageService 2 sf0 lf0 cf0 sweepPage1 rfl rfl]
  rfl

/-- C6 (amended): the cap-workaround restart and the nested re-queries
derive new filter values by clone-with-override, but top-level page
chaining advances the sweep's search filter in place — after a paginated
sweep the engine's search filter value carries the advanced cursor, so a
previously constructed filter does not keep its `afterCursor`
unchanged. -/
theorem c6_filter_lifecycle_amended :
    (∀ (sf : GraphQLFilter) (d : PyDate),
      (newSweepFilter sf d).after = none ∧
      (newSweepFilter sf d).first = sf.first ∧
      (newSweepFilter sf d).type = sf.type) ∧
    (∀ (service : Service) (fuel : Nat)
      (sf lf cf : GraphQLFilter) (allEdges : List Edge) (index : Nat)
      (e : Edge) (rest : List Edge),
      processEdges service fuel sf lf cf allEdges index (e :: rest) =
        (get_paginated_labels service fuel (singleIssueFilter sf allEdges index)
            lf cf e.node.labels).bind
          (fun ls =>
            (get_paginated_comments service fuel
                (singleIssueFilter sf allEdges index) lf cf
                e.node.comments).bind
              (fun cs =>
                (parseIssue e.node ls.1 cs.1).bind
                  (fun issue =>
                    (processEdges service fuel sf lf cf allEdges (index + 1)
                        rest).bind
                      (fun more => some (issue :: more)))))) ∧
    (∀ (service : Service) (fuel : Nat) (sf lf cf : GraphQLFilter)
      (page page2 : SearchPayload) (is1 is2 : List Issue),
      service sf lf cf = some page →
      page.pageInfo.hasNextPage = true →
      service { sf with after := page.pageInfo.endCursor } lf cf = some page2 →
      page2.pageInfo.hasNextPage = false →
      processEdges service (fuel + 1) sf lf cf page.edges 0 page.edges = some is1 →
      processEdges service fuel { sf with after := page.pageInfo.endCursor } lf cf
        page2.edges 0 page2.edges = some is2 →
      get_paginated_issues service (fuel + 1 + 1) sf lf cf =
        some (is1 ++ is2, page.issueCount,
          { sf with after := page.pageInfo.endCursor })) ∧
    (∀ (sf : GraphQLFilter) (c : Option String),
      sf.after ≠ c → ({ sf with after := c } : GraphQLFilter) ≠ sf) := by
  refine ⟨fun sf d => ⟨rfl, rfl, rfl⟩, ?_, ?_, ?_⟩
  · intro service fuel sf lf cf allEdges index e rest
    simp [processEdges]
  · intro service fuel sf lf cf page page2 is1 is2 hs hn hs2 hn2 hp1 hp2
    simp [get_paginated_issues, hs, hn, hs2, hn2, hp1, hp2]
  · intro sf c h heq
    exact h ((congrArg GraphQLFilter.after heq).symm)

/-- Witness for the amended C6 statement: the two-page sweep leaves the
engine's search filter holding the advanced cursor, a value different
from the initially constructed filter. -/
theorem c6_filter_lifecycle_amended_witness :
    get_paginated_issues twoPageService 3 sf0 lf0 cf0 =
      some ([resolvedNode "I1" "hello", resolvedNode "I2" "hello"], 5,
        { sf0 with after := some "CUR1" }) ∧
    ({ sf0 with after := some "CUR1" } : GraphQLFilter) ≠ sf0 := by
  constructor
  · exact c6_filter_lifecycle_amended.2.2.1 twoPageService 1 sf0 lf0 cf0
      sweepPage1 sweepPage2 [resolvedNode "I1" "hello"]
      [resolvedNode "I2" "hello"] rfl rfl rfl rfl rfl rfl
  · exact c6_filter_lifecycle_amended.2.2.2 sf0 (some "CUR1") (by decide)

/-- C6 counterexample: after the concrete two-page sweep the engine's
search filter value has `afterCursor = some "CUR1"`, differing from the
initially constructed filter (whose cursor was absent): the cursor was
advanced by in-place assignment, not by clone-with-override. -/
theorem c6_inplace_mutation_counterexample :
    (get_paginated_issues twoPageService 3 sf0 lf0 cf0).map (fun r => r.2.2) =
      some { sf0 with after := some "CUR1" } ∧
    ({ sf0 with after := some "CUR1" } : GraphQLFilter) ≠ sf0 := by
  exact ⟨rfl, by decide⟩

/-- One thousand resolved issues: a sweep that returned exactly the
ceiling. -/
def issuesK : List Issue := List.replicate 999 issueB ++ [issueA]

/-- C3: after a sweep, a new sweep starts if and only if the reported
total match count exceeds 1000 and the number of issues retrieved so far
is an exact multiple of 1000; the new sweep's filter is the clone of the
search filter with its cursor cleared and its date bound narrowed to the
creation date of the last issue retrieved; the search string always
sorts by creation ascending; a count of at most 1000 never triggers a
further sweep. -/
theorem c3_cap_workaround :
    (∀ (sweep : GraphQLFilter → Option (List Issue × Nat)) (fuel : Nat)
      (sf : GraphQLFilter) (issues : List Issue) (count : Nat),
      count ≤ 1000 →
      capLoop sweep (fuel + 1) sf issues count = some (issues, 0)) ∧
    (∀ (sweep : GraphQLFilter → Option (List Issue × Nat)) (fuel : Nat)
      (sf : GraphQLFilter) (issues : List Issue) (count : Nat),
      ¬(count > 1000 ∧ 1000 ∣ issues.length) →
      capLoop sweep (fuel + 1) sf issues count = some (issues, 0)) ∧
    (∀ (sweep : GraphQLFilter → Option (List Issue × Nat)) (fuel : Nat)
      (sf : GraphQLFilter) (issues : List Issue) (count : Nat) (last : Issue),
      count > 1000 → 1000 ∣ issues.length → issues.getLast? = some last →
      capLoop sweep (fuel + 1) sf issues count =
        (sweep (newSweepFilter sf last.created_at.date)).bind
          (fun b =>
            (capLoop sweep fuel sf (issues ++ b.1) b.2).bind
              (fun r => some (r.1, r.2 + 1)))) ∧
    (∀ (sf : GraphQLFilter) (d : PyDate),
      (newSweepFilter sf d).after = none ∧
      (newSweepFilter sf d).first = sf.first ∧
      (newSweepFilter sf d).type = sf.type ∧
      ∀ q : SearchQuery, sf.query = some q →
        (newSweepFilter sf d).query = some { q with updated := some d }) ∧
    (∀ q : SearchQuery, "sort:created-asc" ∈ q.tokens) := by
  refine ⟨?_, ?_, ?_, ?_, ?_⟩
  · intro sweep fuel sf issues count h
    have hb : (count > 1000 && issues.length % 1000 == 0) = false := by
      have hc : ¬(count > 1000) := by omega
      simp [hc]
    simp [capLoop, hb]
  · intro sweep fuel sf issues count h
    have hb : (count > 1000 && issues.length % 1000 == 0) = false := by
      by_contra hc
      rw [Bool.not_eq_false, Bool.and_eq_true] at hc
      refine h ⟨by simpa using hc.1, ?_⟩
      have hm : issues.length % 1000 = 0 := by simpa using hc.2
      omega
    simp [capLoop, hb]
  · intro sweep fuel sf issues count last h1 h2 h3
    have hm : issues.length % 1000 = 0 := by omega
    have hb : (count > 1000 && issues.length % 1000 == 0) = true := by
      simp [h1, hm]
    simp [capLoop, hb, h3]
  · intro sf d
    refine ⟨rfl, rfl, rfl, ?_⟩
    intro q hq
    simp [newSweepFilter, hq]
  · intro q
    simp [SearchQuery.tokens]

/-- Witness for C3: a fully returned count of 500 triggers nothing; a
count of 1500 with exactly 1000 retrieved issues triggers exactly one
further sweep (here empty-yielding); the restart filter clears the
cursor; the ascending sort token is always rendered. -/
theorem c3_cap_workaround_witness :
    capLoop (fun _ => some ([], 0)) 2 sf0 [issueA] 500 = some ([issueA], 0) ∧
    capLoop (fun _ => some ([], 0)) 2 sf0 issuesK 1500 = some (issuesK, 1) ∧
    (newSweepFilter sf0 ⟨"2024-05-05"⟩).after = none ∧
    "sort:created-asc" ∈ ({} : SearchQuery).tokens := by
  refine ⟨?_, ?_, ?_, ?_⟩
  · exact c3_cap_workaround.1 (fun _ => some ([], 0)) 1 sf0 [issueA] 500 (by omega)
  · have h := c3_cap_workaround.2.2.1 (fun _ => some ([], 0)) 1 sf0 issuesK 1500
      issueA (by omega)
      (by
        have hlen : issuesK.length = 1000 := by
          rw [issuesK, List.length_append, List.length_replicate]
          rfl
        omega)
      (by rw [issuesK, List.getLast?_concat])
    rw [h]
    simp [capLoop]
  · exact (c3_cap_workaround.2.2.2.1 sf0 ⟨"2024-05-05"⟩).1
  · exact c3_cap_workaround.2.2.2.2 {}
